import Mathlib

/- Verification of the FirstCyclingScraper extraction and normalization engine
   (first_cycling_api/old_stuff.py), through a shallow embedding of its row,
   record and side-table logic.  Text is modelled as `List Char`; Python
   exceptions are modelled as `Except PyErr`. -/

/-- Python exception kinds occurring in the embedded fragments. -/
inductive PyErr where
  | parserError
  | valueError
  | keyError
  | indexError
  | typeError
  deriving DecidableEq

/-- A calendar date as produced by the date decoder. -/
structure PyDate where
  year : Nat
  month : Nat
  day : Nat
  deriving DecidableEq

/-- Python whitespace characters stripped by `str.strip()`. -/
def isPyWS (c : Char) : Bool :=
  c == ' ' || c == '\t' || c == '\n' || c == '\r' || c == '\x0b' || c == '\x0c'

/-- Python `str.strip()`: drop leading and trailing whitespace. -/
def pyStrip (s : List Char) : List Char :=
  (((s.dropWhile isPyWS).reverse).dropWhile isPyWS).reverse

/-- Does `s` start with `p`? (helper for substring containment). -/
def leadsWith : List Char → List Char → Bool
  | [], _ => true
  | _ :: _, [] => false
  | x :: xs, y :: ys => if x = y then leadsWith xs ys else false

/-- Does `s` end with `suf`? (Python `str.endswith`). -/
def trailsWith (suf s : List Char) : Bool :=
  leadsWith suf.reverse s.reverse

/-- Python substring containment `sub in s`. -/
def occursIn (sub : List Char) : List Char → Bool
  | [] => sub.isEmpty
  | y :: ys => leadsWith sub (y :: ys) || occursIn sub ys

/-- Python `str.replace(c, new)` for a one-character pattern. -/
def replaceChar : List Char → Char → List Char → List Char
  | [], _, _ => []
  | x :: xs, c, new => (if x = c then new else [x]) ++ replaceChar xs c new

/-- Python `str.split(c)` for a one-character separator: always at least one
token, and empty tokens between adjacent separators are kept. -/
def splitOnChar : List Char → Char → List (List Char)
  | [], _ => [[]]
  | x :: xs, c =>
    if x = c then [] :: splitOnChar xs c
    else
      match splitOnChar xs c with
      | [] => [[x]]
      | t :: ts => (x :: t) :: ts

/-- Fuel-indexed worker for multi-character split. -/
def splitOnSeqFuel : Nat → List Char → List Char → List (List Char)
  | 0, s, _ => [s]
  | Nat.succ n, s, sep =>
    match s with
    | [] => [[]]
    | x :: xs =>
      if leadsWith sep s then
        [] :: splitOnSeqFuel n (s.drop sep.length) sep
      else
        match splitOnSeqFuel n xs sep with
        | [] => [[x]]
        | t :: ts => (x :: t) :: ts

/-- Python `str.split(sep)` for a non-empty multi-character separator. -/
def splitOnSeq (s sep : List Char) : List (List Char) :=
  splitOnSeqFuel (s.length + 1) s sep

/-- Value of a string of decimal digits. -/
def digitsToNat (s : List Char) : Nat :=
  s.foldl (fun a c => 10 * a + (c.toNat - 48)) 0

/-- Python `str.isnumeric()` restricted to ASCII digits (the only numerals in
the scraped tables). -/
def pyIsNumeric (s : List Char) : Bool :=
  !s.isEmpty && s.all Char.isDigit

/-- Python `int(s)` on the digit strings the scraper feeds it: empty or
non-digit text raises `ValueError`. -/
def pyInt (s : List Char) : Except PyErr Nat :=
  if pyIsNumeric s then Except.ok (digitsToNat s) else Except.error PyErr.valueError

/-- Python `float(s)` on the non-negative decimal point values the scraper
feeds it: `"12"` or `"12.5"`; anything else raises `ValueError`. -/
def pyFloat (s : List Char) : Except PyErr Rat :=
  match splitOnChar s '.' with
  | [w] =>
    match pyInt w with
    | Except.ok n => Except.ok (n : Rat)
    | Except.error e => Except.error e
  | [w, f] =>
    match pyInt w, pyInt f with
    | Except.ok wn, Except.ok fn => Except.ok ((wn : Rat) + (fn : Rat) / ((10 : Rat) ^ f.length))
    | _, _ => Except.error PyErr.valueError
  | _ => Except.error PyErr.valueError

/-- Python `str.capitalize()`: first character upper-cased, the rest
lower-cased. -/
def pyCapitalize : List Char → List Char
  | [] => []
  | c :: cs => c.toUpper :: cs.map Char.toLower

/-- Python truthiness of an optional string: `None` and `""` are falsy. -/
def pyTruthyStr : Option (List Char) → Bool
  | none => false
  | some s => !s.isEmpty

instance {ε α : Type} [DecidableEq ε] [DecidableEq α] : DecidableEq (Except ε α)
  | Except.ok a, Except.ok b =>
    if h : a = b then isTrue (by rw [h]) else isFalse (by intro he; cases he; exact h rfl)
  | Except.ok _, Except.error _ => isFalse (fun h => Except.noConfusion h)
  | Except.error _, Except.ok _ => isFalse (fun h => Except.noConfusion h)
  | Except.error e, Except.error f =>
    if h : e = f then isTrue (by rw [h]) else isFalse (by intro he; cases he; exact h rfl)

/-- An embedded image reference inside a table cell, carrying its `src`
attribute. -/
structure Img where
  src : List Char := []
  deriving DecidableEq

/-- Modelled from the spec: an embedded link reference, carrying the two
identifiers the decoders of the absent `utilities` module extract from its
URL (`race_link_to_race_id`, `race_link_to_stage_num`). -/
structure Link where
  raceIdCode : Nat := 0
  stageNumCode : Nat := 0
  deriving DecidableEq

/-- Modelled from the spec: `race_link_to_race_id` (absent `utilities`
module) resolves the race identifier a link encodes. -/
def race_link_to_race_id (l : Link) : Nat := l.raceIdCode

/-- Modelled from the spec: `race_link_to_stage_num` (absent `utilities`
module) resolves the stage number a link encodes. -/
def race_link_to_stage_num (l : Link) : Nat := l.stageNumCode

/-- Modelled from the spec: `img_to_country_code` (absent `utilities` module)
resolves a country code from an embedded image reference's filename stem. -/
def img_to_country_code (i : Img) : List Char :=
  (splitOnChar ((splitOnChar i.src '/').getLastD []) '.').headD []

/-- One `td` of a results-table row: its text, its embedded images and its
embedded links. -/
structure Cell where
  text : List Char := []
  imgs : List Img := []
  links : List Link := []
  deriving DecidableEq

/-- The finish-position value: an integer rank when the text is numeric, else
the literal status label (old_stuff.py line 186). -/
inductive ResultVal where
  | rank (n : Nat)
  | label (s : List Char)
  deriving DecidableEq

/-- One normalized rider result record, as built by `RiderResult.__init__`
(old_stuff.py lines 159-207).  Attributes the source leaves unset are
modelled as `none` defaults. -/
structure RiderResult where
  date : PyDate
  result : ResultVal
  gc_standing : Option Nat
  icon : Option (List Char)
  cat : List Char
  uci_points : Option Rat
  race_id : Nat
  race_country_code : List Char
  full_name : List Char
  name : List Char
  edition_country_code : Option (List Char) := none
  edition_city : Option (List Char) := none
  stage_num : Option Nat := none
  classification : Option (List Char) := none
  deriving DecidableEq

/-- dateutil `parse(s).date()` on the hyphenated numeric dates of the results
table (old_stuff.py line 177): `"YYYY-MM-DD"` with a month in 1..12 and a day
in 1..31, else `ParserError`.  (Month-specific day limits are not modelled;
no claim distinguishes them.) -/
def pyDateutilParse (s : List Char) : Except PyErr PyDate :=
  match splitOnChar s '-' with
  | [y, m, d] =>
    if pyIsNumeric y && pyIsNumeric m && pyIsNumeric d
        && decide (1 ≤ digitsToNat m) && decide (digitsToNat m ≤ 12)
        && decide (1 ≤ digitsToNat d) && decide (digitsToNat d ≤ 31) then
      Except.ok ⟨digitsToNat y, digitsToNat m, digitsToNat d⟩
    else Except.error PyErr.parserError
  | _ => Except.error PyErr.parserError

/-- The date decoder of `RiderResult.__init__` (old_stuff.py lines 176-183):
try a direct parse; on `ParserError` split on `-`, substitute `"01"` for a
zero-valued month or day component, and parse again. -/
def parseRiderDate (s : List Char) : Except PyErr PyDate :=
  match pyDateutilParse s with
  | Except.ok dt => Except.ok dt
  | Except.error _ =>
    match splitOnChar s '-' with
    | [y, m, d] =>
      match pyInt m with
      | Except.error e => Except.error e
      | Except.ok mv =>
        match pyInt d with
        | Except.error e => Except.error e
        | Except.ok dv =>
          pyDateutilParse (y ++ '-' :: (if mv = 0 then ['0', '1'] else m)
            ++ '-' :: (if dv = 0 then ['0', '1'] else d))
    | _ => Except.error PyErr.valueError

/-- The race-name normalization of old_stuff.py line 197:
`race_td.text.strip().replace('\n', ' ').replace('\t', '').replace('\r', '')`. -/
def normalizeFullName (t : List Char) : List Char :=
  replaceChar (replaceChar (replaceChar (pyStrip t) '\n' [' ']) '\t' []) '\r' []

/-- The race-name tokens of old_stuff.py line 198:
`[x.strip() for x in full_name.split('|')]`. -/
def raceTokens (t : List Char) : List (List Char) :=
  (splitOnChar (normalizeFullName t) '|').map pyStrip

/-- The GC-standing decoder (old_stuff.py line 187): empty text is `None`,
else `int`. -/
def gcStep (gcC : Cell) : Except PyErr (Option Nat) :=
  if gcC.text.isEmpty then Except.ok none
  else Except.map some (pyInt gcC.text)

/-- The icon decoder (old_stuff.py line 188): last path segment of the first
image's `src`, or `None` when the cell has no image. -/
def iconStep (iconC : Cell) : Option (List Char) :=
  iconC.imgs.head?.map (fun i => (splitOnChar i.src '/').getLastD [])

/-- The UCI-points decoder (old_stuff.py line 190): structurally absent column
is `None`; a literal dash is `0`; else the parsed float. -/
def uciStep (uciC : Option Cell) : Except PyErr (Option Rat) :=
  match uciC with
  | none => Except.ok none
  | some uc =>
    if uc.text = ['-'] then Except.ok (some 0)
    else Except.map some (pyFloat uc.text)

/-- The body of `RiderResult.__init__` (old_stuff.py lines 173-207) once the
eight `td`s are in hand; the UCI cell is `none` for the appended-`None`
pre-2018 layout.  Steps appear in source order so the first raised exception
wins. -/
def buildFrom (dateC _dateAlt resC gcC iconC raceC catC : Cell)
    (uciC : Option Cell) : Except PyErr RiderResult :=
  match parseRiderDate dateC.text with
  | Except.error e => Except.error e
  | Except.ok dt =>
    let resultV := if pyIsNumeric resC.text then ResultVal.rank (digitsToNat resC.text)
      else ResultVal.label resC.text
    match gcStep gcC with
    | Except.error e => Except.error e
    | Except.ok gcV =>
      match uciStep uciC with
      | Except.error e => Except.error e
      | Except.ok uciV =>
        match raceC.links with
        | [] => Except.error PyErr.indexError
        | link0 :: _ =>
          match raceC.imgs with
          | [] => Except.error PyErr.indexError
          | img0 :: imgsRest =>
            let fullV := normalizeFullName raceC.text
            let tokens := raceTokens raceC.text
            let base : RiderResult :=
              { date := dt, result := resultV, gc_standing := gcV,
                icon := iconStep iconC, cat := catC.text, uci_points := uciV,
                race_id := race_link_to_race_id link0,
                race_country_code := img_to_country_code img0,
                full_name := fullV, name := tokens.headD [] }
            if raceC.imgs.length = 2 then
              match imgsRest with
              | [] => Except.error PyErr.indexError
              | img1 :: _ =>
                match tokens[1]? with
                | none => Except.error PyErr.indexError
                | some city =>
                  Except.ok { base with
                    edition_country_code := some (img_to_country_code img1),
                    edition_city := some city }
            else if raceC.links.length = 2 then
              Except.ok { base with
                stage_num := some (race_link_to_stage_num link0) }
            else if tokens.length = 2 then
              Except.ok { base with classification := tokens[1]? }
            else Except.ok base

/-- `RiderResult` construction over a whole row (old_stuff.py lines 167-173
with the `RiderResultsTable` filter): fewer than 7 `td`s is a silently
dropped row (`ok none`); 7 `td`s append a `None` UCI cell; 8 `td`s unpack
directly; more would fail the tuple unpacking. -/
def buildRiderResult (row : List Cell) : Except PyErr (Option RiderResult) :=
  match row with
  | [a, b, c, d, e, f, g] => Except.map some (buildFrom a b c d e f g none)
  | [a, b, c, d, e, f, g, h] => Except.map some (buildFrom a b c d e f g (some h))
  | row => if row.length < 7 then Except.ok none else Except.error PyErr.valueError

/-- One `tr` of the race side-table as navigated by the soup: its embedded
images and, for the multi-flag edge case, the text immediately following the
last image (`next_sibling`). -/
structure SideRow where
  imgs : List Img := []
  tailText : List Char := []
  deriving DecidableEq

/-- The race side-table (old_stuff.py lines 227-230): `details` and
`soup_details` share one key set, so each key maps to its text value paired
with its soup row. -/
abbrev InfoTable := List (List Char × (List Char × SideRow))

/-- First-match lookup in the side-table (pandas Series indexing). -/
def lookupEntry (info : InfoTable) (k : List Char) : Option (List Char × SideRow) :=
  (info.find? (fun e => e.1 == k)).map (fun e => e.2)

/-- The text value behind a key (`details[k]`). -/
def lookupText (info : InfoTable) (k : List Char) : Option (List Char) :=
  (lookupEntry info k).map (fun e => e.1)

/-- The soup row behind a key (`soup_details[k]`). -/
def lookupRow (info : InfoTable) (k : List Char) : Option SideRow :=
  (lookupEntry info k).map (fun e => e.2)

/-- `k in details.index`. -/
def hasKey (info : InfoTable) (k : List Char) : Bool :=
  (lookupEntry info k).isSome

/-- Nation and start/end cities of the race side-table (old_stuff.py lines
233-245): the nation key is `"Nation"` if present else `"Where"` (a `KeyError`
when that is missing too); `"Where"` splits on `" -> "` into start/end city;
the multi-flag Nation row overrides both with the last image and its trailing
text. -/
def extractNationCities (info : InfoTable) : Except PyErr (List Char × Option (List Char) × Option (List Char)) :=
  match lookupRow info (if hasKey info (("Nation").data) then ("Nation").data else ("Where").data) with
  | none => Except.error PyErr.keyError
  | some row =>
    match row.imgs with
    | [] => Except.error PyErr.typeError
    | img0 :: _ =>
      match (match lookupText info (("Where").data) with
             | some wv =>
               if occursIn ((" -> ").data) wv then
                 match splitOnSeq wv ((" -> ").data) with
                 | [a, b] => (Except.ok (some a, some b) :
                     Except PyErr (Option (List Char) × Option (List Char)))
                 | _ => Except.error PyErr.valueError
               else Except.ok (some wv, some wv)
             | none => Except.ok (none, none)) with
      | Except.error e => Except.error e
      | Except.ok cities =>
        if hasKey info (("Nation").data) && decide (1 < row.imgs.length) then
          let li := row.imgs.getLastD { src := [] }
          Except.ok (img_to_country_code li,
            some (pyStrip row.tailText), some (pyStrip row.tailText))
        else
          Except.ok (img_to_country_code img0, cities.1, cities.2)

/-- Stage number of the race side-table (old_stuff.py lines 259-262):
`int` of the concatenated numeric characters of the `"What"` value (line 259
runs first, so a digit-free value raises `ValueError` from `int('')`), then a
value containing `"Prologue"` is forced to `0`. -/
def extractStageNum (info : InfoTable) : Except PyErr (Option Nat) :=
  match lookupText info (("What").data) with
  | none => Except.ok none
  | some w =>
    match pyInt (w.filter (fun c => c.isDigit)) with
    | Except.error e => Except.error e
    | Except.ok n =>
      Except.ok (some (if occursIn (("Prologue").data) w then 0 else n))

/-- Jersey colour of the results-dataframe fragment (old_stuff.py lines
303-310): for a truthy icon, the first colour token `col` with `col + '.'`
contained in the icon wins, capitalized.  (The mis-indented source loop is
read under its `if self.icon:` guard; `colour_icons` lives in the absent
`utilities` module and is kept as a parameter.)  -/
def jerseyOf (icon : Option (List Char)) (colour_icons : List (List Char)) : Option (List Char) :=
  if pyTruthyStr icon then
    (colour_icons.find? (fun col => occursIn (col ++ ['.']) (icon.getD []))).map pyCapitalize
  else none

/-- Profile of the results-dataframe fragment (old_stuff.py lines 312-314):
looked up in `profile_icon_map` (a parameter, absent `utilities` module) only
when the jersey colour is falsy. -/
def profileOf (icon : Option (List Char)) (colour_icons : List (List Char))
    (profile_icon_map : List (List Char × List Char)) : Option (List Char) :=
  if pyTruthyStr (jerseyOf icon colour_icons) then none
  else
    match icon with
    | some ic => ((profile_icon_map.find? (fun p => p.1 == ic)).map (fun p => p.2))
    | none => none

/-- `series['ttt']` (old_stuff.py line 316): `profile == 'TTT'`; comparing
`None` with a string is `False`. -/
def tttOf (icon : Option (List Char)) (colour_icons : List (List Char))
    (profile_icon_map : List (List Char × List Char)) : Bool :=
  decide (profileOf icon colour_icons profile_icon_map = some (("TTT").data))

/-- `series['itt']` (old_stuff.py line 317): `'ITT' in profile` when the
profile is truthy, else `None`. -/
def ittOf (icon : Option (List Char)) (colour_icons : List (List Char))
    (profile_icon_map : List (List Char × List Char)) : Option Bool :=
  let p := profileOf icon colour_icons profile_icon_map
  if pyTruthyStr p then some (occursIn (("ITT").data) (p.getD [])) else none

/-- `series['tt']` (old_stuff.py line 318): Python `itt or ttt` — the second
operand is returned whenever the first is falsy (`None` or `False`). -/
def ttOf (icon : Option (List Char)) (colour_icons : List (List Char))
    (profile_icon_map : List (List Char × List Char)) : Option Bool :=
  match ittOf icon colour_icons profile_icon_map with
  | some true => some true
  | _ => some (tttOf icon colour_icons profile_icon_map)

/-- A profile-conditional substring flag (old_stuff.py lines 320-323). -/
def profFlagOf (sub : List Char) (icon : Option (List Char))
    (colour_icons : List (List Char))
    (profile_icon_map : List (List Char × List Char)) : Option Bool :=
  let p := profileOf icon colour_icons profile_icon_map
  if pyTruthyStr p then some (occursIn sub (p.getD [])) else none

/-- The derived-classification flags of one record (old_stuff.py lines
302-323), keyed by the record's icon. -/
structure SeriesFlags where
  jersey_colour : Option (List Char)
  profile : Option (List Char)
  ttt : Bool
  itt : Option Bool
  tt : Option Bool
  mtf : Option Bool
  mountain : Option Bool
  hilly : Option Bool
  flat : Option Bool
  cobbled : Option Bool
  deriving DecidableEq

/-- The derived-classification engine (old_stuff.py lines 302-323) for one
icon, with the colour list and profile table of the absent `utilities`
module as parameters. -/
def computeSeries (icon : Option (List Char)) (colour_icons : List (List Char))
    (profile_icon_map : List (List Char × List Char)) : SeriesFlags :=
  { jersey_colour := jerseyOf icon colour_icons,
    profile := profileOf icon colour_icons profile_icon_map,
    ttt := tttOf icon colour_icons profile_icon_map,
    itt := ittOf icon colour_icons profile_icon_map,
    tt := ttOf icon colour_icons profile_icon_map,
    mtf := (let p := profileOf icon colour_icons profile_icon_map;
      if pyTruthyStr p then some (trailsWith ((" MTF").data) (p.getD [])) else none),
    mountain := profFlagOf (("Mountain").data) icon colour_icons profile_icon_map,
    hilly := profFlagOf (("Hilly").data) icon colour_icons profile_icon_map,
    flat := profFlagOf (("Flat").data) icon colour_icons profile_icon_map,
    cobbled := profFlagOf (("Cobbles").data) icon colour_icons profile_icon_map }

/-- Projection helper: the error a row build raises, if any. -/
def buildErr (row : List Cell) : Option PyErr :=
  match buildRiderResult row with
  | Except.error e => some e
  | Except.ok _ => none

/-- Projection helper: the stage number of a successfully built record. -/
def builtStageNum (row : List Cell) : Option Nat :=
  match buildRiderResult row with
  | Except.ok (some r) => r.stage_num
  | _ => none

/-- Placeholder record used only as a match default by the concrete
witnesses. -/
def dummyRec : RiderResult :=
  { date := ⟨0, 0, 0⟩, result := ResultVal.label [], gc_standing := none,
    icon := none, cat := [], uci_points := none, race_id := 0,
    race_country_code := [], full_name := [], name := [] }

/-- The record a successful row build produces (match default otherwise). -/
def recOf (row : List Cell) : RiderResult :=
  match buildRiderResult row with
  | Except.ok (some r) => r
  | _ => dummyRec

/-- `e.map some = ok (some r)` forces `e = ok r`. -/
theorem exceptMap_some_ok {ε : Type} {α : Type} {e : Except ε α} {r : α}
    (h : Except.map some e = Except.ok (some r)) : e = Except.ok r := by
  cases e with
  | error f => simp [Except.map] at h
  | ok a =>
    simp [Except.map] at h
    rw [h]

-- Concrete demo material ----------------------------------------------------

/-- First link of the demo race cell (encodes stage 4). -/
def lnkA : Link := { raceIdCode := 55, stageNumCode := 4 }

/-- Second link of the demo race cell (encodes stage 9). -/
def lnkB : Link := { raceIdCode := 55, stageNumCode := 9 }

/-- A demo flag image. -/
def imFR : Img := { src := ("img/flags/fr.png").data }

/-- A second demo flag image. -/
def imNO : Img := { src := ("img/flags/no.png").data }

/-- Date cell of the demo rows. -/
def dCell : Cell := { text := ("2020-05-04").data }

/-- Result cell of the demo rows. -/
def resCell : Cell := { text := ("1").data }

/-- Category cell of the demo rows. -/
def catCell : Cell := { text := ("2.UWT").data }

/-- UCI-points cell of the demo rows (the literal placeholder dash). -/
def uciCell : Cell := { text := ['-'] }

/-- Race cell of the stage-result demo row: one image, two links. -/
def rtd5 : Cell :=
  { text := ("Tour of Demo").data, imgs := [imFR], links := [lnkA, lnkB] }

/-- Stage-result demo row (8 cells, 2 links, 1 image). -/
def row5 : List Cell :=
  [dCell, {}, resCell, {}, {}, rtd5, catCell, uciCell]

/-- Race cell of the championship demo row: two images, two links and a
pipe-delimited city. -/
def rtd2 : Cell :=
  { text := ("WC RR | Bergen").data, imgs := [imFR, imNO], links := [lnkA, lnkB] }

/-- Championship demo row (8 cells, 2 images, 2 links). -/
def row2 : List Cell :=
  [dCell, {}, resCell, {}, {}, rtd2, catCell, uciCell]

/-- Race cell with no embedded image. -/
def rtdNoImg : Cell :=
  { text := ("Tour of Demo").data, imgs := [], links := [lnkA] }

/-- Demo row whose race cell holds no image (8 cells). -/
def row10 : List Cell :=
  [dCell, {}, resCell, {}, {}, rtdNoImg, catCell, uciCell]

/-- Race cell of the plain demo rows: one image, one link. -/
def rtdPlain : Cell :=
  { text := ("Tour of Demo").data, imgs := [imFR], links := [lnkA] }

/-- 7-cell demo row (pre-2018 layout, no UCI column). -/
def row7 : List Cell :=
  [dCell, {}, resCell, {}, {}, rtdPlain, catCell]

/-- 8-cell demo row with the dash UCI cell. -/
def row8 : List Cell :=
  [dCell, {}, resCell, {}, {}, rtdPlain, catCell, uciCell]

/-- Demo colour-token list for the derived-classification engine. -/
def demoCols : List (List Char) := [("yellow").data, ("red").data]

/-- Demo profile-icon table for the derived-classification engine. -/
def demoMap : List (List Char × List Char) :=
  [(("mtn.png").data, ("Mountain MTF").data), (("tt.png").data, ("TTT").data)]

/-- Demo side-table without `"Nation"` or `"Where"` keys. -/
def infoC4 : InfoTable := [((("Date").data), ((("1 June").data), ({} : SideRow)))]

/-- Demo side-table whose `"What"` value is a digit-free `"Prologue"`. -/
def infoC3 : InfoTable := [((("What").data), ((("Prologue").data), ({} : SideRow)))]

-- Helper lemmas -------------------------------------------------------------

/-- A list whose head fails the predicate is unchanged by `dropWhile`. -/
theorem dropWhile_of_head (p : Char → Bool) (l : List Char)
    (h : ∀ c, l.head? = some c → p c = false) : l.dropWhile p = l := by
  cases l with
  | nil => rfl
  | cons x xs =>
    have hx := h x rfl
    simp [List.dropWhile_cons, hx]

/-- The head of `dropWhile p l` fails `p`. -/
theorem head_dropWhile_false (p : Char → Bool) (l : List Char) {c : Char}
    (h : (l.dropWhile p).head? = some c) : p c = false := by
  induction l with
  | nil => simp [List.dropWhile] at h
  | cons x xs ih =>
    by_cases hx : p x = true
    · rw [List.dropWhile_cons, if_pos hx] at h
      exact ih h
    · rw [List.dropWhile_cons, if_neg hx] at h
      have hxc : x = c := by simpa using h
      subst hxc
      simpa using hx

/-- `dropWhile` is idempotent. -/
theorem dropWhile_dropWhile (p : Char → Bool) (l : List Char) :
    (l.dropWhile p).dropWhile p = l.dropWhile p :=
  dropWhile_of_head p _ (fun _ hc => head_dropWhile_false p l hc)

/-- A non-empty suffix shares the last element of the full list. -/
theorem getLast?_of_suffix {l1 l2 : List Char} (h : l1 <:+ l2) (hne : l1 ≠ []) :
    l1.getLast? = l2.getLast? := by
  obtain ⟨t, ht⟩ := h
  rw [← ht, List.getLast?_append_of_ne_nil t hne]

/-- `pyStrip` is idempotent: tokens already produced by a strip are
unchanged by another strip. -/
theorem pyStrip_idem (s : List Char) : pyStrip (pyStrip s) = pyStrip s := by
  have h1 : (pyStrip s).dropWhile isPyWS = pyStrip s := by
    apply dropWhile_of_head
    intro c hc
    unfold pyStrip at hc
    rw [List.head?_reverse] at hc
    have hBne : ((s.dropWhile isPyWS).reverse.dropWhile isPyWS) ≠ [] := by
      intro hnil
      rw [hnil] at hc
      simp at hc
    rw [getLast?_of_suffix (List.dropWhile_suffix _) hBne, List.getLast?_reverse] at hc
    exact head_dropWhile_false isPyWS s hc
  show (((pyStrip s).dropWhile isPyWS).reverse.dropWhile isPyWS).reverse = pyStrip s
  rw [h1]
  show ((((s.dropWhile isPyWS).reverse.dropWhile isPyWS).reverse).reverse.dropWhile isPyWS).reverse
      = pyStrip s
  rw [List.reverse_reverse, dropWhile_dropWhile]
  rfl

/-- A list avoiding the separator is a single split token. -/
theorem splitOnChar_of_not_mem {c : Char} {s : List Char} (h : c ∉ s) :
    splitOnChar s c = [s] := by
  induction s with
  | nil => rfl
  | cons x xs ih =>
    have hx : ¬ x = c := fun he => h (he ▸ List.mem_cons_self x xs)
    have hxs : c ∉ xs := fun hm => h (List.mem_cons_of_mem _ hm)
    simp [splitOnChar, hx, ih hxs]

/-- Splitting peels off a leading separator-free block. -/
theorem splitOnChar_append {c : Char} {a : List Char} (b : List Char) (h : c ∉ a) :
    splitOnChar (a ++ c :: b) c = a :: splitOnChar b c := by
  induction a with
  | nil => simp [splitOnChar]
  | cons x xs ih =>
    have hx : ¬ x = c := fun he => h (he ▸ List.mem_cons_self x xs)
    have hxs : c ∉ xs := fun hm => h (List.mem_cons_of_mem _ hm)
    simp [splitOnChar, hx, ih hxs]

/-- Digit strings never contain the hyphen separator. -/
theorem hyphen_not_mem_of_digits {s : List Char} (h : s.all Char.isDigit = true) :
    '-' ∉ s := by
  intro hm
  have := List.all_eq_true.mp h _ hm
  exact absurd this (by decide)

/-- Evaluation of `pyDateutilParse` on a well-formed hyphenated triple. -/
theorem pyDateutilParse_build (y m d : List Char)
    (hy : pyIsNumeric y = true) (hm : pyIsNumeric m = true) (hd : pyIsNumeric d = true)
    (hm1 : 1 ≤ digitsToNat m) (hm12 : digitsToNat m ≤ 12)
    (hd1 : 1 ≤ digitsToNat d) (hd31 : digitsToNat d ≤ 31) :
    pyDateutilParse (y ++ '-' :: m ++ '-' :: d)
      = Except.ok ⟨digitsToNat y, digitsToNat m, digitsToNat d⟩ := by
  have hym : '-' ∉ y := hyphen_not_mem_of_digits ((Bool.and_eq_true _ _).mp hy).2
  have hmm : '-' ∉ m := hyphen_not_mem_of_digits ((Bool.and_eq_true _ _).mp hm).2
  have hdm : '-' ∉ d := hyphen_not_mem_of_digits ((Bool.and_eq_true _ _).mp hd).2
  have hassoc : y ++ '-' :: m ++ '-' :: d = y ++ '-' :: (m ++ '-' :: d) := by
    simp [List.append_assoc]
  have hsplit : splitOnChar (y ++ '-' :: m ++ '-' :: d) '-' = [y, m, d] := by
    rw [hassoc, splitOnChar_append _ hym, splitOnChar_append _ hmm,
      splitOnChar_of_not_mem hdm]
  unfold pyDateutilParse
  rw [hsplit]
  simp [hy, hm, hd, hm1, hm12, hd1, hd31]

/-- Failure of `pyDateutilParse` on a triple with a zero month or day. -/
theorem pyDateutilParse_zero_fail (y m d : List Char)
    (hm : pyIsNumeric m = true) (hd : pyIsNumeric d = true)
    (hym : '-' ∉ y)
    (h0 : digitsToNat m = 0 ∨ digitsToNat d = 0) :
    pyDateutilParse (y ++ '-' :: m ++ '-' :: d) = Except.error PyErr.parserError := by
  have hmm : '-' ∉ m := hyphen_not_mem_of_digits ((Bool.and_eq_true _ _).mp hm).2
  have hdm : '-' ∉ d := hyphen_not_mem_of_digits ((Bool.and_eq_true _ _).mp hd).2
  have hassoc : y ++ '-' :: m ++ '-' :: d = y ++ '-' :: (m ++ '-' :: d) := by
    simp [List.append_assoc]
  have hsplit : splitOnChar (y ++ '-' :: m ++ '-' :: d) '-' = [y, m, d] := by
    rw [hassoc, splitOnChar_append _ hym, splitOnChar_append _ hmm,
      splitOnChar_of_not_mem hdm]
  unfold pyDateutilParse
  rw [hsplit]
  rcases h0 with h0 | h0 <;> simp [h0]

/-- C7: the date decoder substitutes `01` for any zero-valued month or day
component of a hyphenated date it cannot parse, instead of failing:
`"2020-00-15"` decodes to 2020-01-15, `"2020-03-00"` to 2020-03-01 and
`"2020-00-00"` to 2020-01-01. -/
theorem date_zero_component_fallback (y m d : List Char)
    (hy : pyIsNumeric y = true) (hm : pyIsNumeric m = true) (hd : pyIsNumeric d = true)
    (hm12 : digitsToNat m ≤ 12) (hd31 : digitsToNat d ≤ 31)
    (h0 : digitsToNat m = 0 ∨ digitsToNat d = 0) :
    parseRiderDate (y ++ '-' :: m ++ '-' :: d) =
      Except.ok ⟨digitsToNat y,
        if digitsToNat m = 0 then 1 else digitsToNat m,
        if digitsToNat d = 0 then 1 else digitsToNat d⟩ := by
  have hym : '-' ∉ y := hyphen_not_mem_of_digits ((Bool.and_eq_true _ _).mp hy).2
  have hmm : '-' ∉ m := hyphen_not_mem_of_digits ((Bool.and_eq_true _ _).mp hm).2
  have hdm : '-' ∉ d := hyphen_not_mem_of_digits ((Bool.and_eq_true _ _).mp hd).2
  have hassoc : y ++ '-' :: m ++ '-' :: d = y ++ '-' :: (m ++ '-' :: d) := by
    simp [List.append_assoc]
  have hsplit : splitOnChar (y ++ '-' :: m ++ '-' :: d) '-' = [y, m, d] := by
    rw [hassoc, splitOnChar_append _ hym, splitOnChar_append _ hmm,
      splitOnChar_of_not_mem hdm]
  have hfail := pyDateutilParse_zero_fail y m d hm hd hym h0
  unfold parseRiderDate
  rw [hfail, hsplit]
  simp only [pyInt, hm, hd, if_true]
  have h01 : digitsToNat ['0', '1'] = 1 := by decide
  by_cases hmz : digitsToNat m = 0 <;> by_cases hdz : digitsToNat d = 0
  · rw [if_pos hmz, if_pos hdz, if_pos hmz, if_pos hdz]
    have := pyDateutilParse_build y ['0', '1'] ['0', '1'] hy (by decide) (by decide)
      (by decide) (by decide) (by decide) (by decide)
    rw [this, h01]
  · rw [if_pos hmz, if_neg hdz, if_pos hmz, if_neg hdz]
    have := pyDateutilParse_build y ['0', '1'] d hy (by decide) hd
      (by decide) (by decide) (Nat.one_le_iff_ne_zero.mpr hdz) hd31
    rw [this, h01]
  · rw [if_neg hmz, if_pos hdz, if_neg hmz, if_pos hdz]
    have := pyDateutilParse_build y m ['0', '1'] hy hm (by decide)
      (Nat.one_le_iff_ne_zero.mpr hmz) hm12 (by decide) (by decide)
    rw [this, h01]
  · exact absurd h0 (by simp [hmz, hdz])

/-- Witness for C7 at the concrete input `"2020-00-15"`. -/
theorem date_zero_component_fallback_witness :
    parseRiderDate (("2020").data ++ '-' :: ("00").data ++ '-' :: ("15").data)
      = Except.ok ⟨2020, 1, 15⟩ := by
  have h := date_zero_component_fallback (("2020").data) (("00").data) (("15").data)
    (by decide) (by decide) (by decide) (by decide) (by decide) (by decide)
  rw [h]
  decide

/-- Per-character effect of the three chained replacements of old_stuff.py
line 197: a newline becomes one space, a tab or carriage-return disappears,
anything else is kept. -/
def normPass (c : Char) : List Char :=
  if c = '\n' then [' '] else if c = '\t' then [] else if c = '\r' then [] else [c]

/-- One left-to-right pass applying `normPass` to every character. -/
def collapsePass : List Char → List Char
  | [] => []
  | c :: cs => normPass c ++ collapsePass cs

/-- `replaceChar` distributes over append. -/
theorem replaceChar_append (a b : List Char) (c : Char) (new : List Char) :
    replaceChar (a ++ b) c new = replaceChar a c new ++ replaceChar b c new := by
  induction a with
  | nil => rfl
  | cons x xs ih => simp [replaceChar, ih, List.append_assoc]

/-- The replacement chain of old_stuff.py line 197 equals one `normPass`
sweep over the stripped text. -/
theorem normalizeFullName_eq_collapse (t : List Char) :
    normalizeFullName t = collapsePass (pyStrip t) := by
  unfold normalizeFullName
  generalize pyStrip t = s
  induction s with
  | nil => rfl
  | cons c cs ih =>
    show replaceChar (replaceChar (replaceChar (c :: cs) '\n' [' ']) '\t' []) '\r' []
        = normPass c ++ collapsePass cs
    rw [show replaceChar (c :: cs) '\n' [' ']
        = (if c = '\n' then [' '] else [c]) ++ replaceChar cs '\n' [' '] from rfl]
    rw [replaceChar_append, replaceChar_append]
    rw [ih]
    by_cases h1 : c = '\n'
    · subst h1
      simp [normPass, replaceChar]
    · by_cases h2 : c = '\t'
      · subst h2
        simp [normPass, replaceChar]
      · by_cases h3 : c = '\r'
        · subst h3
          simp [normPass, replaceChar]
        · simp [normPass, replaceChar, h1, h2, h3]

/-- C6 (amended): the race-name normalization strips the raw text first, then
collapses each newline to a single space while deleting tabs and carriage
returns in one pass; every `'|'`-token is whitespace-stripped after the
split. -/
theorem full_name_normalization (t : List Char) :
    normalizeFullName t = collapsePass (pyStrip t) ∧
    (raceTokens t).all (fun tok => pyStrip tok == tok) = true := by
  refine ⟨normalizeFullName_eq_collapse t, ?_⟩
  unfold raceTokens
  rw [List.all_eq_true]
  intro x hx
  obtain ⟨y, _, hy⟩ := List.mem_map.mp hx
  subst hy
  rw [beq_iff_eq]
  exact pyStrip_idem y

/-- C6 counterexample: a tab between two letters is deleted, not collapsed to
a single space, so `"a\tb"` normalizes to `"ab"` rather than `"a b"`. -/
theorem full_name_tab_cex :
    normalizeFullName (("a\tb").data) = ("ab").data ∧
    normalizeFullName (("a\tb").data) ≠ ("a b").data ∧
    normalizeFullName (("a\rb").data) = ("ab").data := by decide

/-- C1 (amended): `tt` is `itt or ttt` under Python `or` semantics — the
second operand is returned whenever the first is falsy — so an absent `itt`
with a False `ttt` yields a False (not absent) `tt`, while a False `itt` with
a True `ttt` yields True. -/
theorem tt_or_python_semantics (icon : Option (List Char))
    (cols : List (List Char)) (pmap : List (List Char × List Char)) :
    ((computeSeries icon cols pmap).itt = none →
      (computeSeries icon cols pmap).ttt = false →
      (computeSeries icon cols pmap).tt = some false) ∧
    ((computeSeries icon cols pmap).itt = some false →
      (computeSeries icon cols pmap).ttt = true →
      (computeSeries icon cols pmap).tt = some true) := by
  constructor
  · intro h1 h2
    have h1' : ittOf icon cols pmap = none := h1
    have h2' : tttOf icon cols pmap = false := h2
    show ttOf icon cols pmap = some false
    unfold ttOf
    rw [h1', h2']
  · intro h1 h2
    have h1' : ittOf icon cols pmap = some false := h1
    have h2' : tttOf icon cols pmap = true := h2
    show ttOf icon cols pmap = some true
    unfold ttOf
    rw [h1', h2']

/-- C1 counterexample: with no icon the profile is unknown, so `itt` is
absent and `ttt` is False, yet `tt` is the value False — not absent as the
claim requires. -/
theorem tt_absent_propagation_cex :
    (computeSeries none demoCols demoMap).itt = none ∧
    (computeSeries none demoCols demoMap).ttt = false ∧
    (computeSeries none demoCols demoMap).tt = some false ∧
    ¬ (computeSeries none demoCols demoMap).tt = none := by decide

/-- Witness for C1 (amended) at two concrete icons. -/
theorem tt_or_python_semantics_witness :
    (computeSeries none demoCols demoMap).tt = some false ∧
    (computeSeries (some (("tt.png").data)) demoCols demoMap).tt = some true :=
  ⟨(tt_or_python_semantics none demoCols demoMap).1 (by decide) (by decide),
   (tt_or_python_semantics (some (("tt.png").data)) demoCols demoMap).2
     (by decide) (by decide)⟩

/-- A successful `find?` splits the list at the FIRST satisfying element:
every element before the hit fails the predicate. -/
theorem find?_eq_some_split {α : Type} (p : α → Bool) (l : List α) (c : α)
    (h : l.find? p = some c) :
    ∃ l₁ l₂, l = l₁ ++ c :: l₂ ∧ p c = true ∧ ∀ x ∈ l₁, p x = false := by
  induction l with
  | nil => simp [List.find?] at h
  | cons a as ih =>
    by_cases hpa : p a = true
    · rw [List.find?_cons_of_pos as hpa] at h
      have hac : a = c := by simpa using h
      subst hac
      exact ⟨[], as, rfl, hpa, by simp⟩
    · rw [List.find?_cons_of_neg as (by simpa using hpa)] at h
      obtain ⟨l₁, l₂, heq, hpc, hall⟩ := ih h
      refine ⟨a :: l₁, l₂, by rw [heq]; rfl, hpc, ?_⟩
      intro x hx
      rcases List.mem_cons.mp hx with hxa | hx'
      · subst hxa
        simpa using hpa
      · exact hall x hx'

/-- `find?` succeeds whenever some element satisfies the predicate. -/
theorem find?_ne_none_of_mem {α : Type} (p : α → Bool) {l : List α} {c : α}
    (hc : c ∈ l) (hp : p c = true) : l.find? p ≠ none := by
  induction l with
  | nil => cases hc
  | cons a as ih =>
    by_cases hpa : p a = true
    · rw [List.find?_cons_of_pos as hpa]
      simp
    · rw [List.find?_cons_of_neg as (by simpa using hpa)]
      rcases List.mem_cons.mp hc with hca | hc'
      · subst hca
        exact absurd hp hpa
      · exact ih hc'

/-- C9: `jersey_colour` and `profile` are never both present; any jersey
colour is the capitalization of the FIRST token of the ordered colour list
whose dotted form occurs in the icon — every earlier token fails to match,
so the loop stops at the first hit — and whenever any colour token matches a
truthy icon, the jersey colour is present and the profile is left absent:
the profile table is consulted only when no colour token matched. -/
theorem jersey_profile_exclusive (icon : Option (List Char))
    (cols : List (List Char)) (pmap : List (List Char × List Char))
    (hne : [] ∉ cols) :
    ((computeSeries icon cols pmap).jersey_colour = none ∨
      (computeSeries icon cols pmap).profile = none) ∧
    (∀ j, (computeSeries icon cols pmap).jersey_colour = some j →
      ∃ c₁ c c₂, cols = c₁ ++ c :: c₂ ∧
        occursIn (c ++ ['.']) (icon.getD []) = true ∧
        (∀ x ∈ c₁, occursIn (x ++ ['.']) (icon.getD []) = false) ∧
        j = pyCapitalize c) ∧
    (pyTruthyStr icon = true →
      ∀ c ∈ cols, occursIn (c ++ ['.']) (icon.getD []) = true →
        ¬ (computeSeries icon cols pmap).jersey_colour = none ∧
        (computeSeries icon cols pmap).profile = none) := by
  have hchar : ∀ j, jerseyOf icon cols = some j →
      ∃ c₁ c c₂, cols = c₁ ++ c :: c₂ ∧
        occursIn (c ++ ['.']) (icon.getD []) = true ∧
        (∀ x ∈ c₁, occursIn (x ++ ['.']) (icon.getD []) = false) ∧
        j = pyCapitalize c := by
    intro j hj
    unfold jerseyOf at hj
    by_cases hti : pyTruthyStr icon = true
    · rw [if_pos hti] at hj
      obtain ⟨c, hfind, hcap⟩ := Option.map_eq_some'.mp hj
      obtain ⟨c₁, c₂, heq, hpc, hall⟩ := find?_eq_some_split _ cols c hfind
      exact ⟨c₁, c, c₂, heq, by simpa using hpc,
        fun x hx => by simpa using hall x hx, hcap.symm⟩
    · rw [if_neg hti] at hj
      cases hj
  have htruthy : ∀ j, jerseyOf icon cols = some j →
      pyTruthyStr (jerseyOf icon cols) = true := by
    intro j hJ
    obtain ⟨c₁, c, c₂, heq, _, _, hcap⟩ := hchar j hJ
    have hc : c ∈ cols := by
      rw [heq]
      simp
    have hcne : c ≠ [] := fun h => hne (h ▸ hc)
    rw [hJ]
    cases c with
    | nil => exact absurd rfl hcne
    | cons a as =>
      subst hcap
      simp [pyTruthyStr, pyCapitalize]
  refine ⟨?_, ?_, ?_⟩
  · by_cases hj : pyTruthyStr (jerseyOf icon cols) = true
    · right
      show profileOf icon cols pmap = none
      unfold profileOf
      rw [if_pos hj]
    · left
      show jerseyOf icon cols = none
      cases hJ : jerseyOf icon cols with
      | none => rfl
      | some j => exact absurd (htruthy j hJ) hj
  · intro j hj
    exact hchar j hj
  · intro hti c hc hmatch
    have hfind : cols.find? (fun col => occursIn (col ++ ['.']) (icon.getD [])) ≠ none :=
      find?_ne_none_of_mem _ hc (by simpa using hmatch)
    have hJs : jerseyOf icon cols ≠ none := by
      unfold jerseyOf
      rw [if_pos hti]
      intro hmap
      exact hfind (Option.map_eq_none'.mp hmap)
    refine ⟨hJs, ?_⟩
    show profileOf icon cols pmap = none
    cases hJ : jerseyOf icon cols with
    | none => exact absurd hJ hJs
    | some j =>
      unfold profileOf
      rw [if_pos (htruthy j hJ)]

/-- Witness for C9 at a concrete icon matching the first colour token. -/
theorem jersey_profile_exclusive_witness :
    ((computeSeries (some (("yellow.png").data)) demoCols demoMap).jersey_colour = none ∨
      (computeSeries (some (("yellow.png").data)) demoCols demoMap).profile = none) ∧
    ¬ (computeSeries (some (("yellow.png").data)) demoCols demoMap).jersey_colour = none ∧
    (computeSeries (some (("yellow.png").data)) demoCols demoMap).profile = none :=
  ⟨(jersey_profile_exclusive (some (("yellow.png").data)) demoCols demoMap (by decide)).1,
   (jersey_profile_exclusive (some (("yellow.png").data)) demoCols demoMap
     (by decide)).2.2 (by decide) (("yellow").data) (by decide) (by decide)⟩

/-- C3 (amended): when the `"What"` value holds at least one digit the stage
number is the concatenated-digit integer, forced to `0` if the value contains
`"Prologue"`; with no digits at all the extraction raises `ValueError` from
`int('')` — even when `"Prologue"` is present. -/
theorem stage_num_what_extraction (info : InfoTable) (w : List Char)
    (hw : lookupText info (("What").data) = some w) :
    (w.filter (fun c => c.isDigit) ≠ [] →
      extractStageNum info = Except.ok (some (if occursIn (("Prologue").data) w then 0
        else digitsToNat (w.filter (fun c => c.isDigit))))) ∧
    (w.filter (fun c => c.isDigit) = [] →
      extractStageNum info = Except.error PyErr.valueError) := by
  constructor
  · intro hf
    have hnum : pyIsNumeric (w.filter (fun c => c.isDigit)) = true := by
      unfold pyIsNumeric
      rw [Bool.and_eq_true]
      constructor
      · cases hE : (w.filter (fun c => c.isDigit)).isEmpty with
        | true => exact absurd (List.isEmpty_iff.mp hE) hf
        | false => rfl
      · rw [List.all_eq_true]
        intro x hx
        exact (List.mem_filter.mp hx).2
    unfold extractStageNum
    rw [hw]
    simp [pyInt, hnum]
  · intro hf
    unfold extractStageNum
    simp only [hw]
    rw [hf]
    rfl

/-- C3 counterexample: a digit-free `"Prologue"` value makes the extractor
raise `ValueError` instead of returning stage number 0. -/
theorem prologue_no_digit_cex :
    extractStageNum infoC3 = Except.error PyErr.valueError ∧
    ¬ extractStageNum infoC3 = Except.ok (some 0) := by decide

/-- Witness for C3 (amended) on `"Stage 5"` and `"Prologue | 7 km"`. -/
theorem stage_num_what_extraction_witness :
    extractStageNum [((("What").data), ((("Stage 5").data), ({} : SideRow)))]
        = Except.ok (some 5) ∧
    extractStageNum infoC3 = Except.error PyErr.valueError := by
  constructor
  · have h := (stage_num_what_extraction
      [((("What").data), ((("Stage 5").data), ({} : SideRow)))]
      (("Stage 5").data) (by decide)).1 (by decide)
    rw [h]
    decide
  · exact (stage_num_what_extraction infoC3 (("Prologue").data) (by decide)).2 (by decide)

/-- A key reported absent has no row. -/
theorem lookupRow_none_of_hasKey_false {info : InfoTable} {k : List Char}
    (h : hasKey info k = false) : lookupRow info k = none := by
  unfold hasKey at h
  unfold lookupRow
  cases hE : lookupEntry info k with
  | none => rfl
  | some e =>
    rw [hE] at h
    simp at h

/-- C4 (amended): a side-table lacking both `"Nation"` and `"Where"` makes
the extractor raise `KeyError` at the nation lookup — the failure is
surfaced, not recovered into absent fields. -/
theorem missing_nation_where_raises (info : InfoTable)
    (h1 : hasKey info (("Nation").data) = false)
    (h2 : hasKey info (("Where").data) = false) :
    extractNationCities info = Except.error PyErr.keyError := by
  have hl := lookupRow_none_of_hasKey_false h2
  unfold extractNationCities
  simp [h1, hl]

/-- C4 counterexample: a concrete side-table with neither key raises
`KeyError` rather than yielding a metadata record with absent fields. -/
theorem missing_nation_where_cex :
    extractNationCities infoC4 = Except.error PyErr.keyError ∧
    ∀ out : List Char × Option (List Char) × Option (List Char),
      ¬ extractNationCities infoC4 = Except.ok out := by
  constructor
  · decide
  · intro out h
    rw [show extractNationCities infoC4 = Except.error PyErr.keyError from by decide] at h
    cases h

/-- Witness for C4 (amended) at the concrete keyless side-table. -/
theorem missing_nation_where_raises_witness :
    extractNationCities infoC4 = Except.error PyErr.keyError :=
  missing_nation_where_raises infoC4 (by decide) (by decide)

/-- Inversion of a successful `buildFrom`: the UCI-points step succeeded with
the record's value, the race cell held at least one image, two images force a
championship record, and two links (without two images) put the first link's
stage code in `stage_num`. -/
theorem buildFrom_ok (dateC dAlt resC gcC iconC raceC catC : Cell)
    (uciC : Option Cell) (r : RiderResult)
    (h : buildFrom dateC dAlt resC gcC iconC raceC catC uciC = Except.ok r) :
    uciStep uciC = Except.ok r.uci_points ∧
    raceC.imgs ≠ [] ∧
    (raceC.imgs.length = 2 →
      r.edition_country_code.isSome = true ∧ r.edition_city.isSome = true ∧
      r.stage_num = none ∧ r.classification = none) ∧
    (¬ raceC.imgs.length = 2 → raceC.links.length = 2 →
      r.stage_num = (raceC.links.head?).map race_link_to_stage_num) := by
  unfold buildFrom at h
  cases hp : parseRiderDate dateC.text with
  | error e =>
    simp only [hp] at h
    exact Except.noConfusion h
  | ok dt =>
    simp only [hp] at h
    cases hg : gcStep gcC with
    | error e =>
      simp only [hg] at h
      exact Except.noConfusion h
    | ok gcV =>
      simp only [hg] at h
      cases hu : uciStep uciC with
      | error e =>
        simp only [hu] at h
        exact Except.noConfusion h
      | ok uciV =>
        simp only [hu] at h
        cases hl : raceC.links with
        | nil =>
          simp only [hl] at h
          exact Except.noConfusion h
        | cons link0 linksRest =>
          simp only [hl] at h
          cases hi : raceC.imgs with
          | nil =>
            simp only [hi] at h
            exact Except.noConfusion h
          | cons img0 imgsRest =>
            simp only [hi] at h
            by_cases h2 : (img0 :: imgsRest).length = 2
            · rw [if_pos h2] at h
              cases hir : imgsRest with
              | nil =>
                simp only [hir] at h
                exact Except.noConfusion h
              | cons img1 rest2 =>
                simp only [hir] at h
                cases hc : (raceTokens raceC.text)[1]? with
                | none =>
                  simp only [hc] at h
                  exact Except.noConfusion h
                | some city =>
                  simp only [hc] at h
                  injection h with hr
                  subst hr
                  refine ⟨rfl, by simp, ?_, ?_⟩
                  · intro _
                    exact ⟨rfl, rfl, rfl, rfl⟩
                  · intro hno _
                    exact absurd (hir ▸ h2) hno
            · rw [if_neg h2] at h
              by_cases hL : (link0 :: linksRest).length = 2
              · rw [if_pos hL] at h
                injection h with hr
                subst hr
                refine ⟨rfl, by simp, ?_, ?_⟩
                · intro hcc
                  exact absurd hcc h2
                · intro _ _
                  rfl
              · rw [if_neg hL] at h
                by_cases hT : (raceTokens raceC.text).length = 2
                · rw [if_pos hT] at h
                  injection h with hr
                  subst hr
                  refine ⟨rfl, by simp, ?_, ?_⟩
                  · intro hcc
                    exact absurd hcc h2
                  · intro _ hcl
                    exact absurd hcl hL
                · rw [if_neg hT] at h
                  injection h with hr
                  subst hr
                  refine ⟨rfl, by simp, ?_, ?_⟩
                  · intro hcc
                    exact absurd hcc h2
                  · intro _ hcl
                    exact absurd hcl hL

/-- C2: a row whose race-name cell holds exactly 2 embedded images builds a
championship record — `edition_country_code` and `edition_city` are set while
`stage_num` and `classification` stay absent — even when 2 links or a
pipe-delimited token are also present: championship detection takes
precedence over stage detection, which takes precedence over classification
detection. -/
theorem championship_precedence (a b c d e f g : Cell) (u : Option Cell)
    (r : RiderResult) (h2 : f.imgs.length = 2)
    (h : buildFrom a b c d e f g u = Except.ok r) :
    r.edition_country_code.isSome = true ∧ r.edition_city.isSome = true ∧
    r.stage_num = none ∧ r.classification = none :=
  (buildFrom_ok a b c d e f g u r h).2.2.1 h2

/-- Witness for C2 on a concrete championship row that also carries 2 links
and a pipe-delimited second token. -/
theorem championship_precedence_witness :
    (recOf row2).edition_country_code.isSome = true ∧
    (recOf row2).edition_city.isSome = true ∧
    (recOf row2).stage_num = none ∧ (recOf row2).classification = none :=
  championship_precedence dCell ({} : Cell) resCell ({} : Cell) ({} : Cell)
    rtd2 catCell (some uciCell) (recOf row2) (by decide) (by rfl)

/-- C5 counterexample: on a stage row whose two links encode different stage
numbers, the built stage number is the first link's code (4), not the second
link's (9). -/
theorem stage_from_first_link_cex :
    rtd5.links = [lnkA, lnkB] ∧
    race_link_to_stage_num lnkB = 9 ∧
    builtStageNum row5 = some 4 ∧
    ¬ builtStageNum row5 = some (race_link_to_stage_num lnkB) := by decide

/-- C5 (amended): a stage-classified row (2 links, not 2 images) decodes its
stage number from the FIRST link of the race-name cell, `links[0]`. -/
theorem stage_num_from_first_link (a b c d e f g : Cell) (u : Option Cell)
    (r : RiderResult) (hni : ¬ f.imgs.length = 2) (hl : f.links.length = 2)
    (h : buildFrom a b c d e f g u = Except.ok r) :
    r.stage_num = (f.links.head?).map race_link_to_stage_num :=
  (buildFrom_ok a b c d e f g u r h).2.2.2 hni hl

/-- Witness for C5 (amended) on the concrete stage row. -/
theorem stage_num_from_first_link_witness :
    (recOf row5).stage_num = (rtd5.links.head?).map race_link_to_stage_num :=
  stage_num_from_first_link dCell ({} : Cell) resCell ({} : Cell) ({} : Cell)
    rtd5 catCell (some uciCell) (recOf row5) (by decide) (by decide) (by rfl)

/-- C8: a 7-cell row (pre-2018 layout) builds a record with `uci_points`
wholly absent; an 8-cell row builds one with `uci_points` present — zero for
the literal placeholder dash, else the parsed float. -/
theorem uci_points_presence (a b c d e f g u : Cell) :
    (∀ r, buildRiderResult [a, b, c, d, e, f, g] = Except.ok (some r) →
      r.uci_points = none) ∧
    (∀ r, buildRiderResult [a, b, c, d, e, f, g, u] = Except.ok (some r) →
      (u.text = ['-'] → r.uci_points = some 0) ∧
      (¬ u.text = ['-'] → ∃ v, pyFloat u.text = Except.ok v ∧ r.uci_points = some v)) := by
  constructor
  · intro r h
    have hb := exceptMap_some_ok h
    have h1 := (buildFrom_ok a b c d e f g none r hb).1
    have h2 : (Except.ok (none : Option Rat) : Except PyErr (Option Rat))
        = Except.ok r.uci_points := h1
    exact (Except.ok.inj h2).symm
  · intro r h
    have hb := exceptMap_some_ok h
    have h1 := (buildFrom_ok a b c d e f g (some u) r hb).1
    constructor
    · intro hd
      simp only [uciStep] at h1
      rw [if_pos hd] at h1
      exact (Except.ok.inj h1).symm
    · intro hd
      simp only [uciStep] at h1
      rw [if_neg hd] at h1
      cases hf : pyFloat u.text with
      | error e =>
        rw [hf] at h1
        exact Except.noConfusion h1
      | ok v =>
        rw [hf] at h1
        refine ⟨v, rfl, ?_⟩
        have h2 : (Except.ok (some v) : Except PyErr (Option Rat))
            = Except.ok r.uci_points := h1
        exact (Except.ok.inj h2).symm

/-- Witness for C8 on concrete 7- and 8-cell rows. -/
theorem uci_points_presence_witness :
    (recOf row7).uci_points = none ∧ (recOf row8).uci_points = some 0 := by
  constructor
  · exact (uci_points_presence dCell ({} : Cell) resCell ({} : Cell) ({} : Cell)
      rtdPlain catCell uciCell).1 (recOf row7) (by rfl)
  · exact ((uci_points_presence dCell ({} : Cell) resCell ({} : Cell) ({} : Cell)
      rtdPlain catCell uciCell).2 (recOf row8) (by rfl)).1 (by decide)

/-- C10 counterexample: a well-formed 8-cell row whose race-name cell has no
embedded image makes the builder raise `IndexError` at `imgs[0]` instead of
producing a record with an absent country code. -/
theorem race_country_missing_img_cex :
    buildErr row10 = some PyErr.indexError ∧
    ∀ r : RiderResult, ¬ buildRiderResult row10 = Except.ok (some r) := by
  constructor
  · decide
  · intro r h
    rw [show buildRiderResult row10 = Except.error PyErr.indexError from by decide] at h
    cases h

/-- C10 (amended): a built record only ever arises from a race-name cell with
at least one embedded image — the unguarded `imgs[0]` country-code lookup
fails on imgless cells rather than recovering to an absent code. -/
theorem built_record_has_img (a b c d e f g : Cell) (u : Option Cell)
    (r : RiderResult) (h : buildFrom a b c d e f g u = Except.ok r) :
    f.imgs ≠ [] :=
  (buildFrom_ok a b c d e f g u r h).2.1

/-- Witness for C10 (amended) on the concrete stage row. -/
theorem built_record_has_img_witness : rtd5.imgs ≠ [] :=
  built_record_has_img dCell ({} : Cell) resCell ({} : Cell) ({} : Cell)
    rtd5 catCell (some uciCell) (recOf row5) (by rfl)

